import Mathlib

/-!
Shallow embedding of the cryptographic core of the pycose repository
(src/pycose/crypto.py, src/pycose/cosesignature.py, src/pycose/keys/cosekey.py)
together with theorems settling the frozen specification claims.

Python conventions used throughout the embedding:
* byte strings are `List Nat` with entries below 256;
* text strings handled by the base64 codec are `List Nat` of code points
  (45 = '-', 43 = '+', 95 = '_', 47 = '/', 61 = '=');
* fallible Python code is `Except PyErr _`; a Python function that falls off
  its end returns `None`, modelled as `Option.none`;
* in-place mutation is modelled by explicit state passing: a function that
  mutates `self` (or a passed-in list) returns the updated value.
-/

namespace Pycose

/-- Python-level exceptions observed by the embedded code. `valueError...`
constructors distinguish the `ValueError` messages of
`CoseKey._check_key_conf` by the field they name; the `cose...` constructors
are the exception classes of `pycose.exceptions`; `invalidSignature` is the
cryptography library's `InvalidSignature` raised by `h.verify`. -/
inductive PyErr
  | typeError
  | attributeError
  | indexError
  | valueErrorAlgMismatch
  | valueErrorAlgNone
  | valueErrorCurveMismatch
  | valueErrorPeerAlgMismatch
  | valueErrorPeerCurveMismatch
  | valueErrorPeerKeyOpsMismatch
  | coseIllegalKeyOps
  | coseUnsupportedEnc
  | coseUnsupportedMAC
  | coseInvalidTag
  | invalidSignature
deriving DecidableEq

/-- Byte strings as lists of naturals (each entry is one byte, < 256 where it
matters). -/
abbrev Bytes := List Nat

/-- Modelled from the spec: `pycose.attributes.CoseAlgorithm` (attributes.py is
not among the sources). The spec describes an IANA-style registry of algorithm
identifiers; crypto.py compares members against the symbolic registry names
(`algorithm == 'HS256/64'`, `algorithm == 'AES-MAC-256/64'`), so the members
carry those names, exposed through `pyName`. -/
inductive CoseAlgorithm
  | HMAC_256_64
  | HMAC_256_256
  | HMAC_384_384
  | HMAC_512_512
  | AES_MAC_256_64
  | AES_MAC_128_64
  | AES_MAC_256_128
  | AES_MAC_128_128
  | A128GCM
  | A192GCM
  | A256GCM
  | AES_CCM_16_64_128
  | AES_CCM_16_64_256
  | AES_CCM_64_64_128
  | AES_CCM_64_64_256
  | AES_CCM_16_128_128
  | AES_CCM_16_128_256
  | AES_CCM_64_128_256
  | AES_CCM_64_128_128
  | A128KW
  | A192KW
  | A256KW
  | DIRECT
  | ES256
deriving DecidableEq

/-- Modelled from the spec: the symbolic (string) value of each registry
member, used by the `==` comparisons in crypto.py. -/
def CoseAlgorithm.pyName : CoseAlgorithm → String
  | .HMAC_256_64 => "HS256/64"
  | .HMAC_256_256 => "HS256"
  | .HMAC_384_384 => "HS384"
  | .HMAC_512_512 => "HS512"
  | .AES_MAC_256_64 => "AES-MAC-256/64"
  | .AES_MAC_128_64 => "AES-MAC-128/64"
  | .AES_MAC_256_128 => "AES-MAC-256/128"
  | .AES_MAC_128_128 => "AES-MAC-128/128"
  | .A128GCM => "A128GCM"
  | .A192GCM => "A192GCM"
  | .A256GCM => "A256GCM"
  | .AES_CCM_16_64_128 => "AES-CCM-16-64-128"
  | .AES_CCM_16_64_256 => "AES-CCM-16-64-256"
  | .AES_CCM_64_64_128 => "AES-CCM-64-64-128"
  | .AES_CCM_64_64_256 => "AES-CCM-64-64-256"
  | .AES_CCM_16_128_128 => "AES-CCM-16-128-128"
  | .AES_CCM_16_128_256 => "AES-CCM-16-128-256"
  | .AES_CCM_64_128_256 => "AES-CCM-64-128-256"
  | .AES_CCM_64_128_128 => "AES-CCM-64-128-128"
  | .A128KW => "A128KW"
  | .A192KW => "A192KW"
  | .A256KW => "A256KW"
  | .DIRECT => "direct"
  | .ES256 => "ES256"

/-- The AEAD primitive classes of the cryptography library referenced by the
AEAD dispatch table (crypto.py lines 33-45). -/
inductive AEADPrimitive
  | AESGCM
  | AESCCM
deriving DecidableEq

/-- AEAD dispatch table, crypto.py lines 33-45: algorithm identifier to
(primitive class, tag length in bytes); a missing key is Python's `KeyError`,
modelled as `none`. -/
def AEAD : CoseAlgorithm → Option (AEADPrimitive × Nat)
  | .A128GCM => some (.AESGCM, 16)
  | .A192GCM => some (.AESGCM, 16)
  | .A256GCM => some (.AESGCM, 16)
  | .AES_CCM_16_64_128 => some (.AESCCM, 8)
  | .AES_CCM_16_64_256 => some (.AESCCM, 8)
  | .AES_CCM_64_64_128 => some (.AESCCM, 8)
  | .AES_CCM_64_64_256 => some (.AESCCM, 8)
  | .AES_CCM_16_128_128 => some (.AESCCM, 16)
  | .AES_CCM_16_128_256 => some (.AESCCM, 16)
  | .AES_CCM_64_128_256 => some (.AESCCM, 16)
  | .AES_CCM_64_128_128 => some (.AESCCM, 16)
  | _ => none

/-- An instantiated AEAD cipher object (`AESGCM(key)` / `AESCCM(key, tag_length)`). -/
structure AEADCipher where
  primitive : AEADPrimitive
  key : Bytes
  tagLength : Nat
deriving DecidableEq

/-- Modelled from the spec: the external AEAD primitives (cryptography
library) return ciphertext with the authentication tag appended. The claims
settled here do not depend on the primitive's internals, so it is modelled as
a deterministic invertible toy cipher of the right shape. -/
def AEADCipher.encrypt (c : AEADCipher) (nonce plaintext aad : Bytes) : Bytes :=
  plaintext.map (fun b => (b + c.key.sum + nonce.sum) % 256)
    ++ List.replicate c.tagLength ((plaintext.sum + aad.sum + c.key.sum + nonce.sum) % 256)

/-- Modelled from the spec: inverse of `AEADCipher.encrypt`; fails with the
library's authentication error when the appended tag does not match. -/
def AEADCipher.decrypt (c : AEADCipher) (nonce ciphertext aad : Bytes) : Except PyErr Bytes :=
  let body := ciphertext.take (ciphertext.length - c.tagLength)
  let tag := ciphertext.drop (ciphertext.length - c.tagLength)
  let plaintext := body.map (fun b => (b + 256 - (c.key.sum + nonce.sum) % 256) % 256)
  if tag = List.replicate c.tagLength ((plaintext.sum + aad.sum + c.key.sum + nonce.sum) % 256) then
    Except.ok plaintext
  else
    Except.error PyErr.coseInvalidTag

/-- A Python value in call position in aead_decrypt: the AEAD table entry is
a tuple `(primitive class, tag length)`, and a primitive class. -/
inductive PyCallable1
  | tupleEntry (e : AEADPrimitive × Nat)
  | primitiveClass (p : AEADPrimitive)

/-- Calling such a value with one positional argument: calling a tuple raises
`TypeError` (tuples are not callable); calling a primitive class constructs a
cipher with the library's default tag length 16. -/
def pyCall1 : PyCallable1 → Bytes → Except PyErr AEADCipher
  | .tupleEntry _, _ => .error .typeError
  | .primitiveClass p, key => .ok ⟨p, key, 16⟩

/-- aead_encrypt, crypto.py lines 48-59: looks up `(primitive, tag_length)`;
`KeyError` is turned into `CoseUnsupportedEnc`; the primitive is instantiated
with the table's tag length (the keyword is passed only when it is not the
default 16). -/
def aead_encrypt (key aad plaintext : Bytes) (algorithm : CoseAlgorithm) (nonce : Bytes) :
    Except PyErr Bytes :=
  match AEAD algorithm with
  | none => .error .coseUnsupportedEnc
  | some (primitive, tag_length) =>
      let aead_cipher : AEADCipher :=
        if tag_length ≠ 16 then ⟨primitive, key, tag_length⟩ else ⟨primitive, key, 16⟩
      .ok (aead_cipher.encrypt nonce plaintext aad)

/-- aead_decrypt, crypto.py lines 62-70: `primitive = AEAD[algorithm]` binds
the whole (primitive class, tag length) tuple — it is not destructured — and
`aesgcm = primitive(key)` then calls that tuple, raising `TypeError`; the
surrounding `except` handles only `KeyError`, so the `TypeError` escapes. -/
def aead_decrypt (key aad ciphertext : Bytes) (algorithm : CoseAlgorithm) (nonce : Bytes) :
    Except PyErr Bytes :=
  match AEAD algorithm with
  | none => .error .coseUnsupportedEnc
  | some entry =>
      match pyCall1 (.tupleEntry entry) key with
      | .error e => .error e
      | .ok aesgcm => aesgcm.decrypt nonce ciphertext aad

/-- crypto.py line 17: the set of AES key wrap algorithms. -/
def aes_key_wraps : List CoseAlgorithm := [.A128KW, .A192KW, .A256KW]

/-- Result values of `key_wrap`: a plain byte string, or the byte string
produced by the external `aes_key_wrap` library call (kept symbolic). -/
inductive WrapVal
  | bytes (b : Bytes)
  | aesWrapped (kek plaintext_key : Bytes)
deriving DecidableEq

/-- key_wrap, crypto.py lines 73-77. The function has no `else` branch: for an
algorithm that is neither an AES key wrap nor DIRECT, control falls off the
end and Python returns `None` (modelled as `none`) — no exception is raised. -/
def key_wrap (alg : CoseAlgorithm) (kek plaintext_key : Bytes) : Option WrapVal :=
  if alg ∈ aes_key_wraps then some (.aesWrapped kek plaintext_key)
  else if alg = .DIRECT then some (.bytes [])
  else none

/-- Hash classes used by the HMAC dispatch table (crypto.py lines 19-24). -/
inductive HashAlg
  | SHA256
  | SHA384
  | SHA512
deriving DecidableEq

/-- Digest length in bytes of each hash. -/
def HashAlg.digestLength : HashAlg → Nat
  | .SHA256 => 32
  | .SHA384 => 48
  | .SHA512 => 64

/-- Cipher classes used by the CMAC dispatch table (crypto.py lines 26-31). -/
inductive CipherAlg
  | AES
deriving DecidableEq

/-- HMAC dispatch table, crypto.py lines 19-24. -/
def HMAC : CoseAlgorithm → Option HashAlg
  | .HMAC_256_64 => some .SHA256
  | .HMAC_256_256 => some .SHA256
  | .HMAC_384_384 => some .SHA384
  | .HMAC_512_512 => some .SHA512
  | _ => none

/-- CMAC dispatch table, crypto.py lines 26-31. -/
def CMAC : CoseAlgorithm → Option CipherAlg
  | .AES_MAC_256_64 => some .AES
  | .AES_MAC_128_64 => some .AES
  | .AES_MAC_256_128 => some .AES
  | .AES_MAC_128_128 => some .AES
  | _ => none

/-- Modelled from the spec: HMAC of the external cryptography library; a
deterministic keyed digest of the hash's native output length. Key-size
validation performed by the external primitives is not modelled. -/
def hmacDigest (h : HashAlg) (key msg : Bytes) : Bytes :=
  (List.range h.digestLength).map
    (fun i => (key.sum * 3 + msg.sum * 5 + msg.length * 7 + i) % 256)

/-- Modelled from the spec: AES-CMAC of the external cryptography library; a
deterministic keyed 16-byte digest. Key-size validation performed by the
external primitives is not modelled. -/
def cmacDigest (key msg : Bytes) : Bytes :=
  (List.range 16).map
    (fun i => (key.sum * 3 + msg.sum * 5 + msg.length * 7 + i + 1) % 256)

/-- calc_tag_wrapper, crypto.py lines 80-112: try the CMAC table first
(`KeyError` falls through to the HMAC table, then to `CoseUnsupportedMAC`);
the digest is truncated to its first 8 bytes only when the algorithm compares
equal to the string 'AES-MAC-256/64' (CMAC arm) or 'HS256/64' (HMAC arm). -/
def calc_tag_wrapper (key to_be_maced : Bytes) (algorithm : CoseAlgorithm) :
    Except PyErr Bytes :=
  match CMAC algorithm with
  | some _ =>
      let digest := cmacDigest key to_be_maced
      let digest := if algorithm.pyName = "AES-MAC-256/64" then digest.take 8 else digest
      .ok digest
  | none =>
      match HMAC algorithm with
      | some h =>
          let digest := hmacDigest h key to_be_maced
          let digest := if algorithm.pyName = "HS256/64" then digest.take 8 else digest
          .ok digest
      | none => .error .coseUnsupportedMAC

/-- verify_tag_wrapper, crypto.py lines 115-135: both branches of the
`if algorithm != 'HS256/64' ... elif algorithm == 'HS256/64'` dispatch look
the algorithm up in the HMAC table only (a CMAC algorithm therefore raises
`CoseUnsupportedMAC`); the non-truncated arm delegates to `h.verify` (raising
the library's `InvalidSignature` on mismatch), the truncated arm compares the
first 8 digest bytes and raises `CoseInvalidTag` on mismatch; on success the
function returns True. -/
def verify_tag_wrapper (key tag to_be_maced : Bytes) (algorithm : CoseAlgorithm) :
    Except PyErr Bool :=
  if algorithm.pyName ≠ "HS256/64" then
    match HMAC algorithm with
    | none => .error .coseUnsupportedMAC
    | some h =>
        if hmacDigest h key to_be_maced = tag then .ok true
        else .error .invalidSignature
  else
    match HMAC algorithm with
    | none => .error .coseUnsupportedMAC
    | some h =>
        if (hmacDigest h key to_be_maced).take 8 ≠ tag then .error .coseInvalidTag
        else .ok true

/-- KTY, keys/cosekey.py lines 17-24. -/
inductive KTY
  | RESERVED
  | OKP
  | EC2
  | SYMMETRIC
deriving DecidableEq

/-- KeyOps, keys/cosekey.py lines 27-40. -/
inductive KeyOps
  | SIGN
  | VERIFY
  | ENCRYPT
  | DECRYPT
  | WRAP
  | UNWRAP
  | DERIVE_KEY
  | DERIVE_BITS
  | MAC_CREATE
  | MAC_VERIFY
deriving DecidableEq

/-- EllipticCurveType, keys/cosekey.py lines 43-55. -/
inductive EllipticCurveType
  | RESERVED
  | P_256
  | P_384
  | P_521
  | X25519
  | X448
  | ED25519
  | ED448
  | SECP256K1
deriving DecidableEq

/-- Modelled from the spec: `pycose.algorithms.CoseAlgorithms` (algorithms.py
is not among the sources), the algorithm enumeration used by the key model;
the consistency claims only need its members to be distinguishable. -/
inductive CoseAlgorithms
  | ES256
  | ES384
  | ES512
  | HS256
  | A128GCM
deriving DecidableEq

/-- The mutable state of a `CoseKey` (keys/cosekey.py lines 58-84). Concrete
variants may or may not have a `crv` attribute (`hasattr(self, "crv")` in the
source); `hasCrv` records that, and `crv` is meaningful only when `hasCrv`. -/
structure CoseKey where
  kty : KTY
  kid : Option Bytes
  alg : Option CoseAlgorithms
  key_ops : Option KeyOps
  base_iv : Option Bytes
  hasCrv : Bool
  crv : Option EllipticCurveType
deriving DecidableEq

/-- The curve-resolution block of `_check_key_conf` for `self`
(keys/cosekey.py lines 226-231), entered only when the variant has a `crv`
attribute. -/
def resolveCrvSelf (self : CoseKey) (curve : Option EllipticCurveType) :
    Except PyErr CoseKey :=
  if self.hasCrv then
    if self.crv ≠ none ∧ curve ≠ none ∧ self.crv ≠ curve then
      .error .valueErrorCurveMismatch
    else
      .ok (if curve.isSome then { self with crv := curve } else self)
  else
    .ok self

/-- The curve-resolution block of `_check_key_conf` between `self` and the
peer key (keys/cosekey.py lines 233-237). The source reads `peer_key.crv` and
`self.crv` unconditionally here, so a variant without a `crv` attribute
raises `AttributeError`. -/
def resolveCrvPeer (self peer : CoseKey) : Except PyErr CoseKey :=
  if ¬ peer.hasCrv ∨ ¬ self.hasCrv then .error .attributeError
  else if peer.crv ≠ none ∧ self.crv ≠ peer.crv then .error .valueErrorPeerCurveMismatch
  else .ok { peer with crv := self.crv }

/-- The key-operation blocks of `_check_key_conf` (keys/cosekey.py lines
239-249): self/parameter mismatch raises `CoseIllegalKeyOps`, the parameter
is adopted when given, and the resolved value is matched against and
propagated to the peer. -/
def resolveOps (self : CoseKey) (peer : Option CoseKey) (key_operation : Option KeyOps) :
    Except PyErr (CoseKey × Option CoseKey) :=
  if self.key_ops ≠ none ∧ key_operation ≠ none ∧ self.key_ops ≠ key_operation then
    .error .coseIllegalKeyOps
  else
    let self1 := if key_operation.isSome then { self with key_ops := key_operation } else self
    match peer with
    | none => .ok (self1, none)
    | some pk =>
        if pk.key_ops ≠ none ∧ self1.key_ops ≠ pk.key_ops then
          .error .valueErrorPeerKeyOpsMismatch
        else
          .ok (self1, some { pk with key_ops := self1.key_ops })

/-- CoseKey._check_key_conf, keys/cosekey.py lines 204-249, as a state-passing
function: the source mutates `self` (and `peer_key`) in place and returns
nothing; the model returns the updated pair. The steps run in source order:
algorithm mismatch check, algorithm adoption, algorithm-required check, peer
algorithm resolution, curve resolution (self, then peer), key-operation
resolution (self, then peer). -/
def check_key_conf (self : CoseKey) (algorithm : Option CoseAlgorithms)
    (key_operation : Option KeyOps) (peer_key : Option CoseKey)
    (curve : Option EllipticCurveType) : Except PyErr (CoseKey × Option CoseKey) :=
  if self.alg ≠ none ∧ algorithm ≠ none ∧ self.alg ≠ algorithm then
    .error .valueErrorAlgMismatch
  else
    let self1 := if algorithm.isSome then { self with alg := algorithm } else self
    if self1.alg = none then .error .valueErrorAlgNone
    else
      let peerRes : Except PyErr (Option CoseKey) :=
        match peer_key with
        | none => .ok none
        | some pk =>
            if pk.alg ≠ none ∧ self1.alg ≠ pk.alg then .error .valueErrorPeerAlgMismatch
            else .ok (some { pk with alg := self1.alg })
      match peerRes with
      | .error e => .error e
      | .ok peer1 =>
          match resolveCrvSelf self1 curve with
          | .error e => .error e
          | .ok self2 =>
              let peerRes2 : Except PyErr (Option CoseKey) :=
                match peer1 with
                | none => .ok none
                | some pk => (resolveCrvPeer self2 pk).map some
              match peerRes2 with
              | .error e => .error e
              | .ok peer2 => resolveOps self2 peer2 key_operation

/-- Code point of the i-th character of the standard base64 alphabet
(RFC 4648 table 1), as computed by the stdlib `base64.b64encode`:
A-Z (65-90), a-z (97-122), 0-9 (48-57), 43 is the plus sign, 47 the slash. -/
def b64code (v : Nat) : Nat :=
  if v < 26 then 65 + v
  else if v < 52 then 97 + (v - 26)
  else if v < 62 then 48 + (v - 52)
  else if v = 62 then 43
  else 47

/-- Inverse table: code point to 6-bit value of the standard base64 alphabet;
`none` for a code point outside the alphabet. -/
def b64valueOfCode (c : Nat) : Option Nat :=
  if 65 ≤ c ∧ c ≤ 90 then some (c - 65)
  else if 97 ≤ c ∧ c ≤ 122 then some (c - 97 + 26)
  else if 48 ≤ c ∧ c ≤ 57 then some (c - 48 + 52)
  else if c = 43 then some 62
  else if c = 47 then some 63
  else none

/-- The standard base64 alphabet as a predicate on code points. -/
def isB64StdChar (c : Nat) : Prop :=
  (65 ≤ c ∧ c ≤ 90) ∨ (97 ≤ c ∧ c ≤ 122) ∨ (48 ≤ c ∧ c ≤ 57) ∨ c = 43 ∨ c = 47

instance (c : Nat) : Decidable (isB64StdChar c) := by
  unfold isB64StdChar; infer_instance

/-- The stdlib `base64.b64encode` (RFC 4648 section 4): bytes to the standard
alphabet in 3-byte groups, with trailing groups padded by 61 ('='). -/
def b64encodeBytes : List Nat → List Nat
  | [] => []
  | [a] => [b64code (a / 4), b64code (a % 4 * 16), 61, 61]
  | [a, b] => [b64code (a / 4), b64code (a % 4 * 16 + b / 16), b64code (b % 16 * 4), 61]
  | a :: b :: c :: rest =>
      b64code (a / 4) :: b64code (a % 4 * 16 + b / 16) ::
      b64code (b % 16 * 4 + c / 64) :: b64code (c % 64) :: b64encodeBytes rest

/-- The stdlib `base64.b64decode` on well-formed input: 4-character groups,
with 61 ('=') padding allowed only in the final group; any character outside
the alphabet, a misplaced padding character, or a trailing group shorter than
4 fails (the stdlib raises `binascii.Error`, modelled as `none`). -/
def b64decodeChars : List Nat → Option (List Nat)
  | [] => some []
  | c1 :: c2 :: c3 :: c4 :: rest =>
      if c3 = 61 ∧ c4 = 61 ∧ rest = [] then
        match b64valueOfCode c1, b64valueOfCode c2 with
        | some v1, some v2 => some [v1 * 4 + v2 / 16]
        | _, _ => none
      else if c4 = 61 ∧ rest = [] then
        match b64valueOfCode c1, b64valueOfCode c2, b64valueOfCode c3 with
        | some v1, some v2, some v3 => some [v1 * 4 + v2 / 16, v2 % 16 * 16 + v3 / 4]
        | _, _, _ => none
      else
        match b64valueOfCode c1, b64valueOfCode c2, b64valueOfCode c3, b64valueOfCode c4,
            b64decodeChars rest with
        | some v1, some v2, some v3, some v4, some tl =>
            some ((v1 * 4 + v2 / 16) :: (v2 % 16 * 16 + v3 / 4) :: (v3 % 4 * 64 + v4) :: tl)
        | _, _, _, _, _ => none
  | _ => none

/-- CoseKey.base64encode, keys/cosekey.py lines 135-142: plain
`base64.b64encode` (standard alphabet, mandatory padding); the output string
is modelled as its list of code points. -/
def base64encode (to_encode : Bytes) : List Nat :=
  b64encodeBytes to_encode

/-- CoseKey.base64decode, keys/cosekey.py lines 116-133: substitutes 45 ('-')
back to 43 ('+') and 95 ('_') back to 47 ('/'), then dispatches on the length
mod 4 (0: decode as is; 2: append two padding characters; 3: append one); for
length mod 4 = 1 control falls off the end and Python returns `None`. -/
def base64decode (to_decode : List Nat) : Option Bytes :=
  let s1 := to_decode.map (fun c => if c = 45 then 43 else c)
  let s2 := s1.map (fun c => if c = 95 then 47 else c)
  if s2.length % 4 = 0 then b64decodeChars s2
  else if s2.length % 4 = 2 then b64decodeChars (s2 ++ [61, 61])
  else if s2.length % 4 = 3 then b64decodeChars (s2 ++ [61])
  else none

/-- An element of the COSE signature array: a byte string (encoded protected
header, signature) or a header map (unprotected header). -/
inductive CoseArrayElem
  | bstr (b : Bytes)
  | hmap (m : List (Nat × Nat))
deriving DecidableEq

/-- State of a `CoseSignature` instance (cosesignature.py lines 18-27); the
header maps are opaque content owned by the external header collaborator. -/
structure CoseSignatureS where
  phdr : List (Nat × Nat)
  uhdr : List (Nat × Nat)
  signature : Bytes
  external_aad : Bytes
deriving DecidableEq

/-- Modelled from the spec: `encode_phdr` of the external header-structure
collaborator (basicstructure.py is not among the sources) serializes the
protected header map into an opaque byte string. -/
def encode_phdr (s : CoseSignatureS) : Bytes :=
  s.phdr.foldr (fun p acc => p.1 :: p.2 :: acc) []

/-- Modelled from the spec: `encode_uhdr` of the external header-structure
collaborator returns the unprotected header map. -/
def encode_uhdr (s : CoseSignatureS) : List (Nat × Nat) :=
  s.uhdr

/-- CoseSignature.encode, cosesignature.py lines 37-44: Python truthiness of
the `signature` argument (`None` and the empty byte string are falsy) selects
the 3-element or the 2-element array. -/
def CoseSignature.encode (s : CoseSignatureS) (signature : Option Bytes) :
    List CoseArrayElem :=
  match signature with
  | some sig =>
      if sig.isEmpty then [.bstr (encode_phdr s), .hmap (encode_uhdr s)]
      else [.bstr (encode_phdr s), .hmap (encode_uhdr s), .bstr sig]
  | none => [.bstr (encode_phdr s), .hmap (encode_uhdr s)]

/-- The message object built by `from_cose_obj`/`from_signature_obj`; the list
elements are kept generic since only their movement matters to the claims. -/
structure SigMsg (α : Type) where
  phdr : α
  uhdr : α
  signature : Option α
deriving DecidableEq

/-- Modelled from the spec: `BasicCoseStructure.from_cose_obj`
(basicstructure.py is not among the sources) decodes the ordered pair
protected-header, unprotected-header out of the received array; modelled as a
non-mutating read of the first two elements, the signature field left at its
empty default. -/
def from_cose_obj {α : Type} (cose_obj : List α) : Except PyErr (SigMsg α) :=
  match cose_obj with
  | p :: u :: _ => .ok ⟨p, u, none⟩
  | _ => .error .indexError

/-- CoseSignature.from_signature_obj, cosesignature.py lines 12-16: after
decoding the headers the classmethod unconditionally runs
`cose_signature_obj.pop()`, removing the last element of the caller's list
and storing it as the signature (`list.pop()` raises `IndexError` on an empty
list). State-passing model: the result carries the list as the call leaves
it. -/
def from_signature_obj {α : Type} (cose_signature_obj : List α) :
    Except PyErr (SigMsg α × List α) :=
  match from_cose_obj cose_signature_obj with
  | .error e => .error e
  | .ok msg =>
      match cose_signature_obj.getLast? with
      | some last => .ok ({ msg with signature := some last }, cose_signature_obj.dropLast)
      | none => .error .indexError

/-- CoseSignature.compute_signature, cosesignature.py lines 29-35, delegates
to `crypto.ec_sign_wrapper`; the definition of `ec_sign_wrapper` in crypto.py
is commented out (lines 152-169), so the attribute lookup on the module fails
with `AttributeError` on every call before any signing can happen. -/
def compute_signature (to_sign : Bytes) (alg : Option CoseAlgorithm)
    (key : Option CoseKey) : Except PyErr Bytes :=
  .error .attributeError

/-! Helper lemmas. -/

theorem b64value_b64code (v : Nat) (hv : v < 64) : b64valueOfCode (b64code v) = some v := by
  have h : ∀ w : Fin 64, b64valueOfCode (b64code w.val) = some w.val := by decide
  exact h ⟨v, hv⟩

theorem b64code_ne_61 (v : Nat) : b64code v ≠ 61 := by
  unfold b64code; split_ifs <;> omega

theorem b64code_std (v : Nat) : isB64StdChar (b64code v) := by
  unfold b64code isB64StdChar; split_ifs <;> omega

theorem mem_b64encodeBytes :
    ∀ (b : List Nat) (c : Nat), c ∈ b64encodeBytes b → isB64StdChar c ∨ c = 61
  | [], c, h => by simp [b64encodeBytes] at h
  | [a], c, h => by
      simp only [b64encodeBytes, List.mem_cons, List.not_mem_nil, or_false] at h
      rcases h with rfl | rfl | rfl | rfl
      · exact Or.inl (b64code_std _)
      · exact Or.inl (b64code_std _)
      · exact Or.inr rfl
      · exact Or.inr rfl
  | [a, b], c, h => by
      simp only [b64encodeBytes, List.mem_cons, List.not_mem_nil, or_false] at h
      rcases h with rfl | rfl | rfl | rfl
      · exact Or.inl (b64code_std _)
      · exact Or.inl (b64code_std _)
      · exact Or.inl (b64code_std _)
      · exact Or.inr rfl
  | a :: b :: d :: rest, c, h => by
      simp only [b64encodeBytes, List.mem_cons] at h
      rcases h with rfl | rfl | rfl | rfl | h
      · exact Or.inl (b64code_std _)
      · exact Or.inl (b64code_std _)
      · exact Or.inl (b64code_std _)
      · exact Or.inl (b64code_std _)
      · exact mem_b64encodeBytes rest c h

theorem b64encodeBytes_length_mod4 : ∀ b : List Nat, (b64encodeBytes b).length % 4 = 0
  | [] => by simp [b64encodeBytes]
  | [a] => by simp [b64encodeBytes]
  | [a, b] => by simp [b64encodeBytes]
  | a :: b :: c :: rest => by
      have ih := b64encodeBytes_length_mod4 rest
      simp only [b64encodeBytes, List.length_cons]
      omega

theorem map_id_of_mem {f : Nat → Nat} :
    ∀ l : List Nat, (∀ a ∈ l, f a = a) → l.map f = l
  | [], _ => rfl
  | a :: t, h => by
      have ht := map_id_of_mem t (fun x hx => h x (List.mem_cons_of_mem _ hx))
      simp [List.map, ht, h a (List.mem_cons_self _ _)]

theorem b64decode_encode :
    ∀ b : List Nat, (∀ x ∈ b, x < 256) → b64decodeChars (b64encodeBytes b) = some b
  | [], _ => rfl
  | [a], h => by
      have ha : a < 256 := h a (by simp)
      simp only [b64encodeBytes, b64decodeChars]
      rw [if_pos (by simp), b64value_b64code _ (by omega), b64value_b64code _ (by omega)]
      simp only [Option.some.injEq, List.cons.injEq, and_true]
      omega
  | [a, b], h => by
      have ha : a < 256 := h a (by simp)
      have hb : b < 256 := h b (by simp)
      simp only [b64encodeBytes, b64decodeChars]
      rw [if_neg (fun hc => b64code_ne_61 _ hc.1), if_pos (by simp),
        b64value_b64code _ (by omega), b64value_b64code _ (by omega),
        b64value_b64code _ (by omega)]
      simp only [Option.some.injEq, List.cons.injEq, and_true]
      omega
  | a :: b :: d :: rest, h => by
      have ha : a < 256 := h a (by simp)
      have hb : b < 256 := h b (by simp)
      have hd : d < 256 := h d (by simp)
      have ih := b64decode_encode rest (fun x hx => h x (by simp [hx]))
      simp only [b64encodeBytes, b64decodeChars]
      rw [if_neg (fun hc => b64code_ne_61 _ hc.1),
        if_neg (fun hc => b64code_ne_61 _ hc.1),
        b64value_b64code _ (by omega), b64value_b64code _ (by omega),
        b64value_b64code _ (by omega), b64value_b64code _ (by omega), ih]
      simp only [Option.some.injEq, List.cons.injEq, and_true]
      omega

/-! Theorems settling the claims. -/

/-- C1: the claim states that for every algorithm in the AEAD dispatch table
the decrypt of an encrypt returns the original plaintext. It is false on the
code: `aead_decrypt` binds `primitive = AEAD[algorithm]` — the whole
(primitive class, tag length) tuple — and then calls `primitive(key)`, which
raises `TypeError` for every table algorithm (only `KeyError` is caught), so
`aead_decrypt` never returns a plaintext at all; on an algorithm outside the
table it raises `CoseUnsupportedEnc`. -/
theorem aead_decrypt_raises_typeError (key aad ciphertext nonce : Bytes)
    (algorithm : CoseAlgorithm) :
    aead_decrypt key aad ciphertext algorithm nonce = Except.error PyErr.typeError ∨
    aead_decrypt key aad ciphertext algorithm nonce = Except.error PyErr.coseUnsupportedEnc := by
  cases algorithm <;> simp [aead_decrypt, AEAD, pyCall1]

/-- C4: the claim states that every designated 64-bit-truncated MAC variant
yields an 8-byte tag. It is false on the code for AES-MAC-128/64: the CMAC
arm truncates only when the algorithm equals 'AES-MAC-256/64', so
AES-MAC-128/64 gets the full 16-byte CMAC digest. -/
theorem calc_tag_aes_mac_128_64_not_truncated (key msg : Bytes) :
    calc_tag_wrapper key msg CoseAlgorithm.AES_MAC_128_64 = Except.ok (cmacDigest key msg) ∧
    (cmacDigest key msg).length = 16 := by
  constructor
  · simp [calc_tag_wrapper, CMAC, CoseAlgorithm.pyName]
  · simp [cmacDigest]

/-- C5: the claim states that `key_wrap` raises `UnsupportedKeyWrap` for any
algorithm outside the AES-key-wrap family and DIRECT. It is false on the
code: the function has no `else` branch, so it silently returns `None` there;
the AES-key-wrap and DIRECT branches behave as claimed. -/
theorem key_wrap_falls_through (kek plaintext_key : Bytes) :
    key_wrap CoseAlgorithm.HMAC_256_256 kek plaintext_key = none ∧
    key_wrap CoseAlgorithm.ES256 kek plaintext_key = none ∧
    key_wrap CoseAlgorithm.A128KW kek plaintext_key
      = some (WrapVal.aesWrapped kek plaintext_key) ∧
    key_wrap CoseAlgorithm.DIRECT kek plaintext_key = some (WrapVal.bytes []) := by
  refine ⟨rfl, rfl, rfl, rfl⟩

/-- C6: the claim states that `compute_signature` returns the raw signature
bytes of the primitive selected by the algorithm. It is false on the code:
the method calls `crypto.ec_sign_wrapper`, whose definition is commented out
in crypto.py (lines 152-169), so every call raises `AttributeError`. -/
theorem compute_signature_raises_attributeError (to_sign : Bytes)
    (alg : Option CoseAlgorithm) (key : Option CoseKey) :
    compute_signature to_sign alg key = Except.error PyErr.attributeError := rfl

/-- C7: for every byte string b, base64decode (base64encode b) = b. Holds on
the code: the encoder emits standard padded base64 (length a multiple of 4,
no '-' or '_'), so the decoder's substitutions change nothing and its
length-mod-4 = 0 branch decodes the text back to b. -/
theorem base64_roundtrip (b : Bytes) (hb : ∀ x ∈ b, x < 256) :
    base64decode (base64encode b) = some b := by
  have hmem : ∀ c ∈ b64encodeBytes b, isB64StdChar c ∨ c = 61 :=
    fun c hc => mem_b64encodeBytes b c hc
  have h45 : (b64encodeBytes b).map (fun c => if c = 45 then 43 else c) = b64encodeBytes b := by
    apply map_id_of_mem
    intro a ha
    have : a ≠ 45 := by
      rcases hmem a ha with h | h
      · unfold isB64StdChar at h; omega
      · omega
    simp [this]
  have h95 : (b64encodeBytes b).map (fun c => if c = 95 then 47 else c) = b64encodeBytes b := by
    apply map_id_of_mem
    intro a ha
    have : a ≠ 95 := by
      rcases hmem a ha with h | h
      · unfold isB64StdChar at h; omega
      · omega
    simp [this]
  unfold base64decode base64encode
  simp only [h45, h95]
  rw [if_pos (b64encodeBytes_length_mod4 b)]
  exact b64decode_encode b hb

/-- C7 witness: the round trip evaluated on a concrete byte string. -/
theorem base64_roundtrip_witness :
    base64decode (base64encode [0, 255, 16, 77]) = some [0, 255, 16, 77] :=
  base64_roundtrip [0, 255, 16, 77] (by decide)

/-- C8 counterexample: the claim states that `base64encode` emits only the
URL-safe alphabet and no '=' padding. At the byte string containing the
single byte 255 the output is the code points of "/w==": it contains 47 ('/',
whereas the URL-safe alphabet uses '_') and 61 ('='). -/
theorem base64encode_not_urlsafe_cex :
    base64encode [255] = [47, 119, 61, 61] ∧
    61 ∈ base64encode [255] ∧ 47 ∈ base64encode [255] := by
  refine ⟨rfl, by decide, by decide⟩

/-- C8 amended: every code point emitted by `base64encode` is a character of
the standard (not URL-safe) base64 alphabet or the padding character '='
(61); in particular the URL-safe substitutes '-' (45) and '_' (95) never
occur. -/
theorem base64encode_standard_alphabet (b : Bytes) :
    ∀ c ∈ base64encode b, (isB64StdChar c ∨ c = 61) ∧ c ≠ 45 ∧ c ≠ 95 := by
  intro c hc
  have h := mem_b64encodeBytes b c hc
  refine ⟨h, ?_, ?_⟩ <;>
    · rcases h with h | h
      · unfold isB64StdChar at h; omega
      · omega

/-- C8 amended witness: evaluated at the byte string [255] and its emitted
code point 47 ('/'). -/
theorem base64encode_standard_alphabet_witness :
    (isB64StdChar 47 ∨ (47 : Nat) = 61) ∧ (47 : Nat) ≠ 45 ∧ (47 : Nat) ≠ 95 :=
  base64encode_standard_alphabet [255] 47 (by decide)

/-- C2 counterexample: the claim states that `verify_tag` succeeds on the tag
computed by `calc_tag` for every CMAC-family as well as HMAC-family
algorithm. For the CMAC algorithm AES-MAC-128/128, `calc_tag_wrapper`
computes a tag, but `verify_tag_wrapper` consults only the HMAC table and
raises `CoseUnsupportedMAC`. -/
theorem verify_calc_roundtrip_fails_on_cmac :
    calc_tag_wrapper [1] [2] CoseAlgorithm.AES_MAC_128_128 = Except.ok (cmacDigest [1] [2]) ∧
    verify_tag_wrapper [1] (cmacDigest [1] [2]) [2] CoseAlgorithm.AES_MAC_128_128
      = Except.error PyErr.coseUnsupportedMAC := by
  exact ⟨rfl, rfl⟩

/-- C2 amended: for every HMAC-family algorithm, `verify_tag_wrapper`
succeeds on the tag computed by `calc_tag_wrapper`; for every CMAC-family
algorithm, `verify_tag_wrapper` raises `CoseUnsupportedMAC` whatever the tag
(it only consults the HMAC table). -/
theorem verify_calc_roundtrip_hmac_only (key msg : Bytes) (alg : CoseAlgorithm) :
    ((HMAC alg).isSome = true →
      ∀ t, calc_tag_wrapper key msg alg = Except.ok t →
        verify_tag_wrapper key t msg alg = Except.ok true) ∧
    ((CMAC alg).isSome = true →
      ∀ t, verify_tag_wrapper key t msg alg = Except.error PyErr.coseUnsupportedMAC) := by
  constructor
  · intro hh t hcalc
    cases alg <;>
      simp_all [calc_tag_wrapper, verify_tag_wrapper, CMAC, HMAC, CoseAlgorithm.pyName]
  · intro hc t
    cases alg <;>
      simp_all [verify_tag_wrapper, CMAC, HMAC, CoseAlgorithm.pyName]

/-- C2 amended witness: both conjuncts evaluated on concrete inputs — the
HMAC round trip for HS256 and the CMAC rejection for AES-MAC-128/64. -/
theorem verify_calc_roundtrip_hmac_only_witness :
    verify_tag_wrapper [1] (hmacDigest HashAlg.SHA256 [1] [2]) [2] CoseAlgorithm.HMAC_256_256
      = Except.ok true ∧
    verify_tag_wrapper [1] [9] [2] CoseAlgorithm.AES_MAC_128_64
      = Except.error PyErr.coseUnsupportedMAC :=
  ⟨(verify_calc_roundtrip_hmac_only [1] [2] CoseAlgorithm.HMAC_256_256).1 (by decide)
      (hmacDigest HashAlg.SHA256 [1] [2]) rfl,
    (verify_calc_roundtrip_hmac_only [1] [2] CoseAlgorithm.AES_MAC_128_64).2 (by decide) [9]⟩

/-- C3: for a key whose alg is already set to A, `_check_key_conf` with
algorithm B different from A fails with the configuration-conflict
`ValueError` naming the algorithm field (whatever the other parameters);
with algorithm None (and no other parameters) it succeeds leaving the key —
in particular its alg, still A — unchanged; with algorithm A it succeeds and
is a no-op. -/
theorem check_key_conf_alg_cases (k : CoseKey) (A B : CoseAlgorithms)
    (hA : k.alg = some A) (hne : B ≠ A) :
    (∀ kop pk cv, check_key_conf k (some B) kop pk cv
        = Except.error PyErr.valueErrorAlgMismatch) ∧
    check_key_conf k none none none none = Except.ok (k, none) ∧
    check_key_conf k (some A) none none none = Except.ok (k, none) := by
  have hne' : A ≠ B := fun h => hne h.symm
  obtain ⟨kty, kid, alg, ops, biv, hc, crv⟩ := k
  simp only [] at hA
  subst hA
  refine ⟨?_, ?_, ?_⟩
  · intro kop pk cv
    simp [check_key_conf, hne']
  · simp [check_key_conf, resolveCrvSelf, resolveOps]
  · simp [check_key_conf, resolveCrvSelf, resolveOps]

/-- C3 witness: the three cases evaluated on a concrete EC2-style key whose
alg is ES256, with B = ES384 and no other parameters supplied. -/
theorem check_key_conf_alg_cases_witness :
    check_key_conf ⟨KTY.EC2, none, some CoseAlgorithms.ES256, none, none, true, none⟩
        (some CoseAlgorithms.ES384) none none none
      = Except.error PyErr.valueErrorAlgMismatch ∧
    check_key_conf ⟨KTY.EC2, none, some CoseAlgorithms.ES256, none, none, true, none⟩
        none none none none
      = Except.ok (⟨KTY.EC2, none, some CoseAlgorithms.ES256, none, none, true, none⟩, none) ∧
    check_key_conf ⟨KTY.EC2, none, some CoseAlgorithms.ES256, none, none, true, none⟩
        (some CoseAlgorithms.ES256) none none none
      = Except.ok (⟨KTY.EC2, none, some CoseAlgorithms.ES256, none, none, true, none⟩, none) :=
  let h := check_key_conf_alg_cases
    ⟨KTY.EC2, none, some CoseAlgorithms.ES256, none, none, true, none⟩
    CoseAlgorithms.ES256 CoseAlgorithms.ES384 rfl (by decide)
  ⟨h.1 none none none, h.2.1, h.2.2⟩

/-- C9: `CoseSignature.encode` returns the 2-element array [encoded protected
header, encoded unprotected header] when the signature argument is absent
(None) or empty, and otherwise the 3-element array whose last element is
exactly the given signature bytes. Holds on the code (Python truthiness of
the argument picks the branch). -/
theorem cose_signature_encode_cases (s : CoseSignatureS) (signature : Option Bytes) :
    ((signature = none ∨ signature = some []) →
      CoseSignature.encode s signature
          = [.bstr (encode_phdr s), .hmap (encode_uhdr s)] ∧
      (CoseSignature.encode s signature).length = 2) ∧
    (∀ sig, signature = some sig → sig ≠ [] →
      CoseSignature.encode s signature
          = [.bstr (encode_phdr s), .hmap (encode_uhdr s), .bstr sig] ∧
      (CoseSignature.encode s signature).length = 3 ∧
      (CoseSignature.encode s signature).getLast? = some (.bstr sig)) := by
  constructor
  · rintro (rfl | rfl) <;> simp [CoseSignature.encode]
  · rintro sig rfl hne
    simp [CoseSignature.encode, hne]

/-- C9 witness: both branches evaluated on a concrete structure, with an
empty and with a 2-byte signature. -/
theorem cose_signature_encode_cases_witness :
    (CoseSignature.encode ⟨[(1, 2)], [(4, 5)], [], []⟩ (some [])
        = [.bstr (encode_phdr ⟨[(1, 2)], [(4, 5)], [], []⟩),
            .hmap (encode_uhdr ⟨[(1, 2)], [(4, 5)], [], []⟩)] ∧
      (CoseSignature.encode ⟨[(1, 2)], [(4, 5)], [], []⟩ (some [])).length = 2) ∧
    (CoseSignature.encode ⟨[(1, 2)], [(4, 5)], [], []⟩ (some [1, 2])
        = [.bstr (encode_phdr ⟨[(1, 2)], [(4, 5)], [], []⟩),
            .hmap (encode_uhdr ⟨[(1, 2)], [(4, 5)], [], []⟩), .bstr [1, 2]] ∧
      (CoseSignature.encode ⟨[(1, 2)], [(4, 5)], [], []⟩ (some [1, 2])).length = 3 ∧
      (CoseSignature.encode ⟨[(1, 2)], [(4, 5)], [], []⟩ (some [1, 2])).getLast?
          = some (.bstr [1, 2])) :=
  ⟨(cose_signature_encode_cases ⟨[(1, 2)], [(4, 5)], [], []⟩ (some [])).1 (Or.inr rfl),
    (cose_signature_encode_cases ⟨[(1, 2)], [(4, 5)], [], []⟩ (some [1, 2])).2
      [1, 2] rfl (by decide)⟩

/-- C10: `from_signature_obj` unconditionally pops the last element of its
input list and stores it as the signature: on every call with a list of at
least the two header elements, the caller's list is shortened by exactly one
element and the popped element — whatever it was — becomes the signature, so
a 2-element (unsigned) input is not treated as a distinct case: its
unprotected-header element is consumed as the signature. -/
theorem from_signature_obj_pops_last {α : Type} (obj : List α) (h : 2 ≤ obj.length) :
    ∃ msg : SigMsg α, from_signature_obj obj = Except.ok (msg, obj.dropLast) ∧
      msg.signature = obj.getLast? ∧
      obj.dropLast.length = obj.length - 1 := by
  match obj with
  | [] => simp at h
  | [x] => simp at h
  | p :: u :: rest =>
    obtain ⟨last, hl⟩ : ∃ l, (p :: u :: rest).getLast? = some l := by
      cases hgl : (p :: u :: rest).getLast? with
      | none => simp at hgl
      | some l => exact ⟨l, rfl⟩
    refine ⟨⟨p, u, some last⟩, ?_, ?_, ?_⟩
    · simp [from_signature_obj, from_cose_obj, hl]
    · simp [hl]
    · simp [List.length_dropLast]

/-- C10 witness: on the 2-element input [7, 9] the call succeeds, the
caller's list shrinks to [7], and the unprotected-header element 9 is
consumed as the signature. -/
theorem from_signature_obj_pops_last_witness :
    ∃ msg : SigMsg Nat, from_signature_obj [7, 9] = Except.ok (msg, [7]) ∧
      msg.signature = some 9 ∧ (1 : Nat) = 2 - 1 :=
  from_signature_obj_pops_last [7, 9] (by decide)

end Pycose
